import Mathlib

/-!  Verification of the ControllerEmulator input-to-gamepad transformation
engine.  The definitions below are a shallow embedding of the Python source:
`GamepadController` (infrastructure/gamepad_controller.py), the input handlers
(application/input_handlers.py), the conditional-suppression keyboard listener
(application/input_listeners.py) and the `Config` defaults (config/config.py).
Machine floats are modelled as real numbers; the virtual-gamepad binding is
modelled as an explicit device-state record plus a trace of collaborator
effects (flush/update, suppression requests, cursor requests).  -/

namespace ControllerEmulator

noncomputable section

/-- The Xbox buttons that appear as values of `Config.KEY_MAPPINGS`
(all fourteen distinct buttons used by the program). -/
inductive XUSBButton where
  | btnA | btnB | btnX | btnY
  | dpadUp | dpadDown | dpadLeft | dpadRight
  | leftShoulder | rightShoulder
  | startBtn | back
  | leftThumb | rightThumb
deriving DecidableEq

/-- The keyboard keys that appear as keys of `Config.KEY_MAPPINGS`. -/
inductive MappedKey where
  | space | c | r | one | two | altL | b | three | q | e | esc | tab | shiftKey | f
deriving DecidableEq

/-- The four directional keys of `Config.JOYSTICK_KEYS` (w a s d). -/
inductive JKey where
  | w | a | s | d
deriving DecidableEq

/-- Embedding of `Config.KEY_MAPPINGS` (config/config.py), in dict order. -/
def KEY_MAPPINGS : List (MappedKey × XUSBButton) :=
  [ (.space, .btnA), (.c, .btnB), (.r, .btnX), (.one, .btnY),
    (.two, .dpadUp), (.altL, .dpadDown), (.b, .dpadLeft), (.three, .dpadRight),
    (.q, .leftShoulder), (.e, .rightShoulder), (.esc, .startBtn), (.tab, .back),
    (.shiftKey, .leftThumb), (.f, .rightThumb) ]

/-- Embedding of `Config.JOYSTICK_KEYS`. -/
def JOYSTICK_KEYS : List JKey := [.w, .a, .s, .d]

/-- The tunables read from `Config` on each tick (config/config.py). -/
structure Tunables where
  UPDATE_RATE_HZ : ℝ
  DPI_SCALING : ℝ
  SENS_X : ℝ
  SENS_Y : ℝ
  ADS_SENS_MULTIPLIER : ℝ
  DEADZONE : ℝ
  SMOOTHING : ℝ
  RECOIL_CONTROL_ENABLED : Bool
  RECOIL_COMPENSATION : ℝ

/-- The default tunable values of config/config.py. -/
def Config.defaults : Tunables :=
  { UPDATE_RATE_HZ := 120
    DPI_SCALING := 13 / 1000
    SENS_X := 1
    SENS_Y := 1
    ADS_SENS_MULTIPLIER := 9 / 10
    DEADZONE := 12 / 10000
    SMOOTHING := 0
    RECOIL_CONTROL_ENABLED := true
    RECOIL_COMPENSATION := 9 / 5 }

/-- The channel state of the virtual X360 gamepad (the vgamepad binding):
both sticks, the pressed-button set, both analog triggers.  A freshly
created device is neutral. -/
structure DeviceState where
  leftX : ℝ := 0
  leftY : ℝ := 0
  rightX : ℝ := 0
  rightY : ℝ := 0
  buttons : XUSBButton → Bool := fun _ => false
  leftTrigger : ℝ := 0
  rightTrigger : ℝ := 0

/-- vgamepad `left_joystick_float`. -/
def DeviceState.left_joystick_float (d : DeviceState) (x y : ℝ) : DeviceState :=
  { d with leftX := x, leftY := y }

/-- vgamepad `right_joystick_float`. -/
def DeviceState.right_joystick_float (d : DeviceState) (x y : ℝ) : DeviceState :=
  { d with rightX := x, rightY := y }

/-- vgamepad `press_button`. -/
def DeviceState.press_button (d : DeviceState) (bt : XUSBButton) : DeviceState :=
  { d with buttons := fun b2 => if b2 = bt then true else d.buttons b2 }

/-- vgamepad `release_button`. -/
def DeviceState.release_button (d : DeviceState) (bt : XUSBButton) : DeviceState :=
  { d with buttons := fun b2 => if b2 = bt then false else d.buttons b2 }

/-- vgamepad `left_trigger_float`. -/
def DeviceState.left_trigger_float (d : DeviceState) (v : ℝ) : DeviceState :=
  { d with leftTrigger := v }

/-- vgamepad `right_trigger_float`. -/
def DeviceState.right_trigger_float (d : DeviceState) (v : ℝ) : DeviceState :=
  { d with rightTrigger := v }

/-- Observable side effects issued to collaborators: the device flush
(`gamepad.update()`), suppression requests to the two listeners, cursor
lock/hide/show requests, and the wake-handshake sleeps. -/
inductive Effect where
  | update
  | suppress_mouse (b : Bool)
  | suppress_keyboard (b : Bool)
  | lock_to_center
  | hide_cursor
  | show_cursor
  | sleep
deriving DecidableEq

/-- The mutable state of `GamepadController` together with the cursor
manager's screen centre (used by `on_mouse_move`). -/
structure GCState where
  gamepad : Option DeviceState
  active : Bool
  mouse_dx : ℝ
  mouse_dy : ℝ
  keys : MappedKey → Bool
  joystick_keys : JKey → Bool
  last_lx : ℝ
  last_ly : ℝ
  last_rx : ℝ
  last_ry : ℝ
  r2_held : Bool
  l2_held : Bool
  last_update : ℝ
  update_interval : ℝ
  center_x : ℝ
  center_y : ℝ

/-- `GamepadController.__init__`: all accumulators and stick memories start
at zero, no key held, controller inactive; the constructor immediately calls
`initialize_gamepad`, whose device-creation outcome is `createOk`. -/
def initController (createOk : Bool) (t0 : ℝ) (cfg : Tunables) (cx cy : ℝ) : GCState :=
  { gamepad := if createOk then some {} else none
    active := false
    mouse_dx := 0
    mouse_dy := 0
    keys := fun _ => false
    joystick_keys := fun _ => false
    last_lx := 0
    last_ly := 0
    last_rx := 0
    last_ry := 0
    r2_held := false
    l2_held := false
    last_update := t0
    update_interval := 1 / cfg.UPDATE_RATE_HZ
    center_x := cx
    center_y := cy }

/-- `GamepadController.initialize_gamepad`: create the device if absent;
`createOk` is whether the `VX360Gamepad()` constructor succeeds.  Returns
the new state and the boolean result. -/
def initialize_gamepad (createOk : Bool) (st : GCState) : GCState × Bool :=
  match st.gamepad with
  | some _ => (st, true)
  | none =>
      if createOk then ({ st with gamepad := some {} }, true) else (st, false)

/-- One iteration of the wake-handshake loop in `activate` (lines 89-101):
move the right stick and press BACK, flush, sleep, reset both, flush, sleep. -/
def wakeIter (dev : DeviceState) : DeviceState × List Effect :=
  let dev := (dev.right_joystick_float (1 / 2) 0).press_button .back
  let dev := (dev.right_joystick_float 0 0).release_button .back
  (dev, [.update, .sleep, .update, .sleep])

/-- `GamepadController.activate`: no-op when already active; abort with
`false` when device initialization fails; otherwise wake handshake (two
iterations), suppression on, cursor lock and hide, commit active. -/
def activate (createOk : Bool) (st : GCState) : GCState × Bool × List Effect :=
  if st.active then (st, true, [])
  else
    match initialize_gamepad createOk st with
    | (st1, false) => (st1, false, [])
    | (st1, true) =>
        let wake : GCState × List Effect :=
          match st1.gamepad with
          | some dev =>
              let w1 := wakeIter dev
              let w2 := wakeIter w1.1
              ({ st1 with gamepad := some w2.1 }, w1.2 ++ w2.2)
          | none => (st1, [])
        let st2 := { wake.1 with active := true }
        (st2, true,
          wake.2 ++ [.suppress_mouse true, .suppress_keyboard true,
                     .lock_to_center, .hide_cursor])

/-- `GamepadController._reset_gamepad`: zero both sticks, release every
mapped button, zero both triggers, flush.  No device, no action. -/
def reset_gamepad (st : GCState) : GCState × List Effect :=
  match st.gamepad with
  | none => (st, [])
  | some dev =>
      let dev := dev.left_joystick_float 0 0
      let dev := dev.right_joystick_float 0 0
      let dev := List.foldl (fun d kb => DeviceState.release_button d kb.2) dev KEY_MAPPINGS
      let dev := dev.left_trigger_float 0
      let dev := dev.right_trigger_float 0
      ({ st with gamepad := some dev }, [.update])

/-- `GamepadController.deactivate`: no-op when already inactive; otherwise
commit inactive, reset the device, clear key and joystick-key flags,
release suppression, show the cursor. -/
def deactivate (st : GCState) : GCState × List Effect :=
  if !st.active then (st, [])
  else
    let st := { st with active := false }
    let r := reset_gamepad st
    let st := { r.1 with joystick_keys := fun _ => false, keys := fun _ => false }
    (st, r.2 ++ [.suppress_mouse false, .suppress_keyboard false, .show_cursor])

/-- `GamepadController._get_mouse_movement`: drain and zero the accumulators. -/
def get_mouse_movement (st : GCState) : (ℝ × ℝ) × GCState :=
  ((st.mouse_dx, st.mouse_dy), { st with mouse_dx := 0, mouse_dy := 0 })

/-- The accumulation loop of `_process_left_joystick` (lines 193-203):
fold over `JOYSTICK_KEYS`, adding the unit contribution of each held key
and recording whether any key is held. -/
def leftAccum (jk : JKey → Bool) : ℝ × ℝ × Bool :=
  List.foldl
    (fun acc k =>
      if jk k then
        match k with
        | .d => (acc.1 + 1, acc.2.1, true)
        | .a => (acc.1 - 1, acc.2.1, true)
        | .w => (acc.1, acc.2.1 + 1, true)
        | .s => (acc.1, acc.2.1 - 1, true)
      else acc)
    (0, 0, false) JOYSTICK_KEYS

/-- The movement-stick vector of `_process_left_joystick`: accumulate,
normalize the diagonal by the Euclidean magnitude when both axes are
non-zero, and reset to zero when no key is held. -/
def leftStickVec (jk : JKey → Bool) : ℝ × ℝ :=
  let acc := leftAccum jk
  let lx := acc.1
  let ly := acc.2.1
  let p : ℝ × ℝ :=
    if lx ≠ 0 ∧ ly ≠ 0 then
      let magnitude := Real.sqrt (lx * lx + ly * ly)
      (lx / magnitude, ly / magnitude)
    else (lx, ly)
  if acc.2.2 then p else (0, 0)

/-- `GamepadController._process_left_joystick`: emit the movement vector to
the device and remember it in `last_lx/last_ly`. -/
def process_left_joystick (st : GCState) (dev : DeviceState) : GCState × DeviceState :=
  let p := leftStickVec st.joystick_keys
  ({ st with last_lx := p.1, last_ly := p.2 }, dev.left_joystick_float p.1 p.2)

/-- The numeric core of `_process_right_joystick` (lines 222-241): recoil
compensation, sensitivity with ADS multiplier and DPI scaling, Y inversion,
deadzone, smoothing against the previous output, clamping. -/
def rightStickPipeline (cfg : Tunables) (l2 r2 : Bool) (lastRx lastRy dx dy : ℝ) : ℝ × ℝ :=
  let dy := if cfg.RECOIL_CONTROL_ENABLED && l2 then dy + cfg.RECOIL_COMPENSATION else dy
  let sens_multiplier := if r2 then cfg.ADS_SENS_MULTIPLIER else 1
  let rx := dx * cfg.SENS_X * sens_multiplier * cfg.DPI_SCALING
  let ry := -dy * cfg.SENS_Y * sens_multiplier * cfg.DPI_SCALING
  let rx := if |rx| > cfg.DEADZONE then rx else 0
  let ry := if |ry| > cfg.DEADZONE then ry else 0
  let rx := lastRx * cfg.SMOOTHING + rx * (1 - cfg.SMOOTHING)
  let ry := lastRy * cfg.SMOOTHING + ry * (1 - cfg.SMOOTHING)
  let rx := max (-1) (min 1 rx)
  let ry := max (-1) (min 1 ry)
  (rx, ry)

/-- `GamepadController._process_right_joystick`: drain the mouse
accumulators, run the numeric pipeline, emit to the device and persist the
result in `last_rx/last_ry`. -/
def process_right_joystick (cfg : Tunables) (st : GCState) (dev : DeviceState) :
    GCState × DeviceState :=
  let m := get_mouse_movement st
  let st := m.2
  let p := rightStickPipeline cfg st.l2_held st.r2_held st.last_rx st.last_ry m.1.1 m.1.2
  ({ st with last_rx := p.1, last_ry := p.2 }, dev.right_joystick_float p.1 p.2)

/-- `GamepadController._process_buttons`: full resync of every mapped
button from the held-key flags. -/
def process_buttons (st : GCState) (dev : DeviceState) : DeviceState :=
  List.foldl
    (fun d kb => if st.keys kb.1 then d.press_button kb.2 else d.release_button kb.2)
    dev KEY_MAPPINGS

/-- `GamepadController._process_triggers`: the fire mouse button drives the
right trigger, the aim mouse button drives the left trigger. -/
def process_triggers (st : GCState) (dev : DeviceState) : DeviceState :=
  let dev := if st.l2_held then dev.right_trigger_float 1 else dev.right_trigger_float 0
  if st.r2_held then dev.left_trigger_float 1 else dev.left_trigger_float 0

/-- The mapper pipeline run by `process_inputs` when active (lines 180-183):
movement stick, look stick, buttons, triggers. -/
def run_mappers (cfg : Tunables) (st : GCState) (dev : DeviceState) : GCState × DeviceState :=
  let a := process_left_joystick st dev
  let b := process_right_joystick cfg a.1 a.2
  let dev2 := process_buttons b.1 b.2
  let dev3 := process_triggers b.1 dev2
  (b.1, dev3)

/-- `GamepadController.process_inputs`: skip the tick entirely when the
elapsed time is below the period; otherwise record the tick time, run the
mappers only when active, and always flush the device (when present). -/
def process_inputs (cfg : Tunables) (now : ℝ) (st : GCState) : GCState × List Effect :=
  if now - st.last_update < st.update_interval then (st, [])
  else
    let st := { st with last_update := now }
    match st.gamepad with
    | none => (st, [])
    | some dev =>
        if st.active then
          let r := run_mappers cfg st dev
          ({ r.1 with gamepad := some r.2 }, [.update])
        else
          (st, [.update])

/-- `InputHandler.on_mouse_move` (application/input_handlers.py): drop the
event while inactive; otherwise accumulate the displacement from the screen
centre and request cursor re-centering. -/
def on_mouse_move (st : GCState) (x y : ℝ) : GCState × List Effect :=
  if !st.active then (st, [])
  else
    let dx := x - st.center_x
    let dy := y - st.center_y
    let st := { st with mouse_dx := st.mouse_dx + dx, mouse_dy := st.mouse_dy + dy }
    (st, [.lock_to_center])

/-- `ConditionalSuppressKeyboardListener._suppress_event`
(application/input_listeners.py): an event carrying a character that
lowercases to the toggle key is never suppressed; every other event follows
the suppression flag.  `none` models an event without a character. -/
def keyboard_suppress_event (suppressFlag : Bool) (toggle_key : Char)
    (eventChar : Option Char) : Bool :=
  match eventChar with
  | some ch => if ch.toLower == toggle_key then false else suppressFlag
  | none => suppressFlag

/-- The deadzone stage as the spec words it: an axis is zeroed when its
absolute value is at most the deadzone. -/
def specDeadzone (cfg : Tunables) (v : ℝ) : ℝ :=
  if |v| ≤ cfg.DEADZONE then 0 else v

/-- The smoothing stage as the spec words it: previous output weighted by
the smoothing factor plus the fresh value weighted by its complement. -/
def specSmooth (cfg : Tunables) (last v : ℝ) : ℝ :=
  last * cfg.SMOOTHING + v * (1 - cfg.SMOOTHING)

/-- The clamping stage: restrict a value to the interval from -1 to 1. -/
def specClamp (v : ℝ) : ℝ := max (-1) (min 1 v)

/-- The look-stick transformation exactly as the spec describes it, stage
by stage: recoil folded into dy first, then sensitivity with the ADS
multiplier and Y inversion, then deadzone, then smoothing, then clamping. -/
def lookStickSpec (cfg : Tunables) (l2 r2 : Bool) (lastRx lastRy dx dy : ℝ) : ℝ × ℝ :=
  let dy2 := if cfg.RECOIL_CONTROL_ENABLED && l2 then dy + cfg.RECOIL_COMPENSATION else dy
  let m := if r2 then cfg.ADS_SENS_MULTIPLIER else 1
  let rx := dx * cfg.SENS_X * m * cfg.DPI_SCALING
  let ry := -(dy2 * cfg.SENS_Y * m * cfg.DPI_SCALING)
  (specClamp (specSmooth cfg lastRx (specDeadzone cfg rx)),
   specClamp (specSmooth cfg lastRy (specDeadzone cfg ry)))

/-- A concrete active controller state with a device attached, the fire
trigger flag set and everything else neutral. -/
def stActiveFire : GCState :=
  { gamepad := some {}
    active := true
    mouse_dx := 0
    mouse_dy := 0
    keys := fun _ => false
    joystick_keys := fun _ => false
    last_lx := 0
    last_ly := 0
    last_rx := 0
    last_ry := 0
    r2_held := false
    l2_held := true
    last_update := 0
    update_interval := 1 / 120
    center_x := 0
    center_y := 0 }

/-- A concrete active controller state with a device attached, 1000 counts
of undrained mouse displacement, and no key, joystick key or mouse button
held. -/
def stActiveResidual : GCState :=
  { gamepad := some {}
    active := true
    mouse_dx := 1000
    mouse_dy := 0
    keys := fun _ => false
    joystick_keys := fun _ => false
    last_lx := 0
    last_ly := 0
    last_rx := 0
    last_ry := 0
    r2_held := false
    l2_held := false
    last_update := 0
    update_interval := 1 / 120
    center_x := 0
    center_y := 0 }

/-- A concrete active controller state with a device attached and
everything neutral: no key, joystick key or mouse button held, no pending
displacement. -/
def stActiveClean : GCState :=
  { gamepad := some {}
    active := true
    mouse_dx := 0
    mouse_dy := 0
    keys := fun _ => false
    joystick_keys := fun _ => false
    last_lx := 0
    last_ly := 0
    last_rx := 0
    last_ry := 0
    r2_held := false
    l2_held := false
    last_update := 0
    update_interval := 1 / 120
    center_x := 0
    center_y := 0 }

/-- A concrete inactive controller state with a device attached and
everything neutral. -/
def stIdle : GCState :=
  { gamepad := some {}
    active := false
    mouse_dx := 0
    mouse_dy := 0
    keys := fun _ => false
    joystick_keys := fun _ => false
    last_lx := 0
    last_ly := 0
    last_rx := 0
    last_ry := 0
    r2_held := false
    l2_held := false
    last_update := 0
    update_interval := 1 / 120
    center_x := 0
    center_y := 0 }

end

section Theorems

/-- Zeroing an axis when its magnitude fails to exceed the deadzone is the
same as zeroing it when its magnitude is at most the deadzone. -/
theorem deadzone_flip (dz v : ℝ) :
    (if |v| > dz then v else 0) = (if |v| ≤ dz then 0 else v) := by
  rcases le_or_lt |v| dz with h | h
  · rw [if_neg (not_lt.mpr h), if_pos h]
  · rw [if_pos h, if_neg (not_le.mpr h)]

/-- The source's right-stick numeric pipeline coincides with the spec's
staged description. -/
theorem rightStickPipeline_eq_spec (cfg : Tunables) (l2 r2 : Bool)
    (lastRx lastRy dx dy : ℝ) :
    rightStickPipeline cfg l2 r2 lastRx lastRy dx dy =
      lookStickSpec cfg l2 r2 lastRx lastRy dx dy := by
  simp only [rightStickPipeline, lookStickSpec, specDeadzone, specSmooth, specClamp,
    neg_mul, deadzone_flip]

/-- C1: for every drained mouse displacement processed by one look-stick
tick, the emitted axes follow the spec's staged formula (recoil into dy
when firing, sensitivity with ADS multiplier and DPI scaling, Y inverted
once, per-axis deadzone at threshold at-most, smoothing against the
previous tick's output, clamping to the unit interval), the clamped result
is persisted as last_right_x/last_right_y, and the accumulators are
drained to zero. -/
theorem look_stick_follows_spec (cfg : Tunables) (st : GCState) (dev : DeviceState) :
    (process_right_joystick cfg st dev).2.rightX =
        (lookStickSpec cfg st.l2_held st.r2_held st.last_rx st.last_ry
          st.mouse_dx st.mouse_dy).1
    ∧ (process_right_joystick cfg st dev).2.rightY =
        (lookStickSpec cfg st.l2_held st.r2_held st.last_rx st.last_ry
          st.mouse_dx st.mouse_dy).2
    ∧ (process_right_joystick cfg st dev).1.last_rx =
        (process_right_joystick cfg st dev).2.rightX
    ∧ (process_right_joystick cfg st dev).1.last_ry =
        (process_right_joystick cfg st dev).2.rightY
    ∧ (process_right_joystick cfg st dev).1.mouse_dx = 0
    ∧ (process_right_joystick cfg st dev).1.mouse_dy = 0 := by
  simp [process_right_joystick, get_mouse_movement,
    DeviceState.right_joystick_float, rightStickPipeline_eq_spec]

/-- Closed form of the directional-key accumulation loop. -/
theorem leftAccum_eval (jk : JKey → Bool) :
    leftAccum jk =
      ((if jk .d then 1 else 0) - (if jk .a then 1 else 0),
       (if jk .w then 1 else 0) - (if jk .s then 1 else 0),
       (jk .w || jk .a || jk .s || jk .d)) := by
  unfold leftAccum JOYSTICK_KEYS
  cases hw : jk JKey.w <;> cases ha : jk JKey.a <;>
    cases hs : jk JKey.s <;> cases hd : jk JKey.d <;>
      simp [hw, ha, hs, hd]

/-- With no directional key held the movement stick is exactly zero. -/
theorem leftStickVec_none (jk : JKey → Bool) (h : ∀ k, jk k = false) :
    leftStickVec jk = (0, 0) := by
  simp [leftStickVec, leftAccum_eval, h]

/-- A vector divided by its own Euclidean magnitude has unit norm, provided
its first component is non-zero. -/
theorem norm_normalized (lx ly : ℝ) (h : lx ≠ 0) :
    Real.sqrt ((lx / Real.sqrt (lx * lx + ly * ly)) ^ 2 +
               (ly / Real.sqrt (lx * lx + ly * ly)) ^ 2) = 1 := by
  have hs : 0 < lx * lx + ly * ly := by
    have h1 : 0 < lx * lx := mul_self_pos.mpr h
    have h2 : 0 ≤ ly * ly := mul_self_nonneg ly
    linarith
  have hm : (0:ℝ) < Real.sqrt (lx * lx + ly * ly) := Real.sqrt_pos.mpr hs
  have key : (lx / Real.sqrt (lx * lx + ly * ly)) ^ 2 +
      (ly / Real.sqrt (lx * lx + ly * ly)) ^ 2 = 1 := by
    field_simp
    ring
  rw [key, Real.sqrt_one]

/-- When both accumulated axes are non-zero the emitted movement vector has
unit Euclidean norm. -/
theorem leftStickVec_unit (jk : JKey → Bool)
    (hx : (leftAccum jk).1 ≠ 0) (hy : (leftAccum jk).2.1 ≠ 0) :
    Real.sqrt ((leftStickVec jk).1 ^ 2 + (leftStickVec jk).2 ^ 2) = 1 := by
  have hany : (jk .w || jk .a || jk .s || jk .d) = true := by
    rw [leftAccum_eval] at hx
    cases hd : jk JKey.d <;> cases ha : jk JKey.a <;>
      simp [hd, ha] at hx ⊢
  have hvec : leftStickVec jk =
      ((leftAccum jk).1 / Real.sqrt ((leftAccum jk).1 * (leftAccum jk).1 +
          (leftAccum jk).2.1 * (leftAccum jk).2.1),
       (leftAccum jk).2.1 / Real.sqrt ((leftAccum jk).1 * (leftAccum jk).1 +
          (leftAccum jk).2.1 * (leftAccum jk).2.1)) := by
    rw [leftStickVec]
    have h2 : (leftAccum jk).2.2 = true := by
      rw [leftAccum_eval]; exact hany
    simp [hx, hy, h2]
  rw [hvec]
  exact norm_normalized _ _ hx

/-- A value whose square is at most one has absolute value at most one. -/
theorem abs_le_one_of_sq (y : ℝ) (h : y ^ 2 ≤ 1) : |y| ≤ 1 := by
  nlinarith [sq_abs y, abs_nonneg y, sq_nonneg (|y| - 1)]

/-- The movement-stick output always has Euclidean norm at most one. -/
theorem leftStickVec_norm_le (jk : JKey → Bool) :
    Real.sqrt ((leftStickVec jk).1 ^ 2 + (leftStickVec jk).2 ^ 2) ≤ 1 := by
  by_cases hx : (leftAccum jk).1 = 0
  · have hvec : leftStickVec jk = (0, (leftAccum jk).2.1) ∨ leftStickVec jk = (0, 0) := by
      rw [leftStickVec]
      simp [hx]
      cases h2 : (leftAccum jk).2.2 <;> simp
    have hy2 : (leftAccum jk).2.1 ^ 2 ≤ 1 := by
      rw [leftAccum_eval]
      cases hw : jk JKey.w <;> cases hs : jk JKey.s <;> norm_num
    rcases hvec with h | h <;> rw [h]
    · simpa using abs_le_one_of_sq _ hy2
    · norm_num [Real.sqrt_zero]
  · by_cases hy : (leftAccum jk).2.1 = 0
    · have hx2 : (leftAccum jk).1 ^ 2 ≤ 1 := by
        rw [leftAccum_eval]
        cases hd : jk JKey.d <;> cases ha : jk JKey.a <;> norm_num
      have hvec : leftStickVec jk = ((leftAccum jk).1, 0) ∨ leftStickVec jk = (0, 0) := by
        rw [leftStickVec]
        simp [hy]
        cases h2 : (leftAccum jk).2.2 <;> simp
      rcases hvec with h | h <;> rw [h]
      · simpa using abs_le_one_of_sq _ hx2
      · norm_num [Real.sqrt_zero]
    · exact le_of_eq (leftStickVec_unit jk hx hy)

/-- Holding exactly forward and right yields the unit-normalized diagonal. -/
theorem leftStickVec_diag (jk : JKey → Bool)
    (hw : jk .w = true) (hd : jk .d = true) (ha : jk .a = false) (hs : jk .s = false) :
    leftStickVec jk = (1 / Real.sqrt 2, 1 / Real.sqrt 2) := by
  rw [leftStickVec, leftAccum_eval]
  norm_num [hw, hd, ha, hs]

/-- C2: for every subset of held directional keys the movement-stick output
has Euclidean norm at most one; it is exactly zero when no directional key
is held; it has exactly unit norm when both accumulated axes are non-zero;
and holding exactly forward and right yields the diagonal
(1/sqrt 2, 1/sqrt 2). -/
theorem movement_stick_props (jk : JKey → Bool) :
    Real.sqrt ((leftStickVec jk).1 ^ 2 + (leftStickVec jk).2 ^ 2) ≤ 1
    ∧ ((∀ k, jk k = false) → leftStickVec jk = (0, 0))
    ∧ ((leftAccum jk).1 ≠ 0 → (leftAccum jk).2.1 ≠ 0 →
        Real.sqrt ((leftStickVec jk).1 ^ 2 + (leftStickVec jk).2 ^ 2) = 1)
    ∧ (jk .w = true → jk .d = true → jk .a = false → jk .s = false →
        leftStickVec jk = (1 / Real.sqrt 2, 1 / Real.sqrt 2)) :=
  ⟨leftStickVec_norm_le jk, leftStickVec_none jk, leftStickVec_unit jk,
   leftStickVec_diag jk⟩

/-- Witness for C2 at the concrete held-key set containing exactly forward
and right: all four conjuncts of the theorem instantiate, and the
conditional conjuncts discharge concretely. -/
theorem movement_stick_props_witness :
    leftStickVec (fun k => match k with | .w => true | .d => true | _ => false) =
      (1 / Real.sqrt 2, 1 / Real.sqrt 2) :=
  (movement_stick_props _).2.2.2 rfl rfl rfl rfl

/-- Clamping always lands in the interval from -1 to 1. -/
theorem clamp_mem (v : ℝ) : -1 ≤ max (-1) (min 1 v) ∧ max (-1) (min 1 v) ≤ 1 :=
  ⟨le_max_left _ _, max_le (by norm_num) (min_le_left _ _)⟩

/-- Both components of the right-stick pipeline are clamped into the
interval from -1 to 1, for every input and every tunable configuration. -/
theorem rightStickPipeline_mem (cfg : Tunables) (l2 r2 : Bool)
    (lastRx lastRy dx dy : ℝ) :
    (-1 ≤ (rightStickPipeline cfg l2 r2 lastRx lastRy dx dy).1
      ∧ (rightStickPipeline cfg l2 r2 lastRx lastRy dx dy).1 ≤ 1)
    ∧ (-1 ≤ (rightStickPipeline cfg l2 r2 lastRx lastRy dx dy).2
      ∧ (rightStickPipeline cfg l2 r2 lastRx lastRy dx dy).2 ≤ 1) := by
  simp only [rightStickPipeline]
  exact ⟨clamp_mem _, clamp_mem _⟩

/-- C3: for arbitrarily large drained displacement and arbitrary tunables,
the look-stick values emitted to the device and the persisted
last_right_x/last_right_y lie in the interval from -1 to 1; a scheduler
tick preserves membership of the stored values in that interval, and the
initial stored values are 0. -/
theorem look_stick_bounded (cfg : Tunables) (now : ℝ) (st : GCState) (dev : DeviceState)
    (hx : -1 ≤ st.last_rx ∧ st.last_rx ≤ 1) (hy : -1 ≤ st.last_ry ∧ st.last_ry ≤ 1) :
    ((-1 ≤ (process_right_joystick cfg st dev).2.rightX
        ∧ (process_right_joystick cfg st dev).2.rightX ≤ 1)
      ∧ (-1 ≤ (process_right_joystick cfg st dev).2.rightY
        ∧ (process_right_joystick cfg st dev).2.rightY ≤ 1)
      ∧ (-1 ≤ (process_right_joystick cfg st dev).1.last_rx
        ∧ (process_right_joystick cfg st dev).1.last_rx ≤ 1)
      ∧ (-1 ≤ (process_right_joystick cfg st dev).1.last_ry
        ∧ (process_right_joystick cfg st dev).1.last_ry ≤ 1))
    ∧ ((-1 ≤ (process_inputs cfg now st).1.last_rx
        ∧ (process_inputs cfg now st).1.last_rx ≤ 1)
      ∧ (-1 ≤ (process_inputs cfg now st).1.last_ry
        ∧ (process_inputs cfg now st).1.last_ry ≤ 1))
    ∧ ((initController true now cfg 0 0).last_rx = 0
      ∧ (initController true now cfg 0 0).last_ry = 0) := by
  refine ⟨?_, ?_, rfl, rfl⟩
  · simp only [process_right_joystick, get_mouse_movement,
      DeviceState.right_joystick_float]
    exact ⟨(rightStickPipeline_mem _ _ _ _ _ _ _).1,
           (rightStickPipeline_mem _ _ _ _ _ _ _).2,
           (rightStickPipeline_mem _ _ _ _ _ _ _).1,
           (rightStickPipeline_mem _ _ _ _ _ _ _).2⟩
  · by_cases ht : now - st.last_update < st.update_interval
    · simp [process_inputs, ht]
      exact ⟨hx, hy⟩
    · cases hg : st.gamepad with
      | none =>
          simp [process_inputs, ht, hg]
          exact ⟨hx, hy⟩
      | some dev2 =>
          by_cases hac : st.active
          · simp [process_inputs, ht, hg, hac, run_mappers, process_right_joystick,
              process_left_joystick, get_mouse_movement]
            exact ⟨(rightStickPipeline_mem _ _ _ _ _ _ _).1,
                   (rightStickPipeline_mem _ _ _ _ _ _ _).2⟩
          · simp [process_inputs, ht, hg, hac]
            exact ⟨hx, hy⟩

/-- Witness for C3 at the neutral inactive state: the stored look-stick
values after one scheduler tick stay in the interval from -1 to 1. -/
theorem look_stick_bounded_witness :
    -1 ≤ (process_inputs Config.defaults 1 stIdle).1.last_rx
      ∧ (process_inputs Config.defaults 1 stIdle).1.last_rx ≤ 1 :=
  ((look_stick_bounded Config.defaults 1 stIdle {}
      (by norm_num [stIdle]) (by norm_num [stIdle])).2.1).1

/-- C5: a scheduler tick whose elapsed time is below the period is skipped
entirely (state untouched, no effect issued); otherwise, with a device
present, the flush is always issued, an inactive tick changes only the
recorded tick time, and an active tick runs the four-stage mapper pipeline
before the flush. -/
theorem tick_gating (cfg : Tunables) (now : ℝ) (st : GCState) (dev : DeviceState)
    (hdev : st.gamepad = some dev) :
    (now - st.last_update < st.update_interval → process_inputs cfg now st = (st, []))
    ∧ (¬ now - st.last_update < st.update_interval →
        (process_inputs cfg now st).2 = [Effect.update]
        ∧ (st.active = false →
            (process_inputs cfg now st).1 = { st with last_update := now })
        ∧ (st.active = true → process_inputs cfg now st =
            ({ (run_mappers cfg { st with last_update := now } dev).1 with
                gamepad := some (run_mappers cfg { st with last_update := now } dev).2 },
              [Effect.update]))) := by
  constructor
  · intro ht
    simp [process_inputs, ht]
  · intro ht
    have h2 : (process_inputs cfg now st).2 = [Effect.update] := by
      simp [process_inputs, ht, hdev]
      cases hac : st.active <;> simp [hac]
    refine ⟨h2, fun hac => ?_, fun hac => ?_⟩
    · simp [process_inputs, ht, hdev, hac]
    · simp [process_inputs, ht, hdev, hac]

/-- Witness for C5 at the neutral inactive state: a premature tick is a
no-op, and a due tick flushes while changing only the tick time. -/
theorem tick_gating_witness :
    process_inputs Config.defaults 0 stIdle = (stIdle, [])
    ∧ (process_inputs Config.defaults 1 stIdle).2 = [Effect.update] :=
  ⟨(tick_gating Config.defaults 0 stIdle {} rfl).1 (by norm_num [stIdle]),
   ((tick_gating Config.defaults 1 stIdle {} rfl).2 (by norm_num [stIdle])).1⟩

/-- C7: a toggle request matching the current activation state is a no-op:
activating while active and deactivating while inactive return the state
unchanged (input state and device included) and issue no effect at all (no
suppression request, no cursor request, no wake handshake, no flush). -/
theorem toggle_matching_state_noop (createOk : Bool) (st : GCState) :
    (st.active = true → activate createOk st = (st, true, []))
    ∧ (st.active = false → deactivate st = (st, [])) := by
  constructor
  · intro h
    simp [activate, h]
  · intro h
    simp [deactivate, h]

/-- Witness for C7: a concrete already-active state and a concrete
already-inactive state are both left untouched with no effects. -/
theorem toggle_matching_state_noop_witness :
    activate true stActiveFire = (stActiveFire, true, [])
    ∧ deactivate stIdle = (stIdle, []) :=
  ⟨(toggle_matching_state_noop true stActiveFire).1 rfl,
   (toggle_matching_state_noop true stIdle).2 rfl⟩

/-- C8: when device creation fails during the inactive-to-active
transition, activate returns false (no exception is modelled: the function
is total), the state is unchanged and so remains inactive, and no side
effect (wake handshake, suppression, cursor lock or hide) is issued. -/
theorem activate_device_failure (st : GCState)
    (h1 : st.active = false) (h2 : st.gamepad = none) :
    activate false st = (st, false, []) := by
  simp [activate, h1, initialize_gamepad, h2]

/-- Witness for C8: a freshly constructed controller whose device creation
failed stays inactive with no effects when activation is requested. -/
theorem activate_device_failure_witness :
    activate false (initController false 0 Config.defaults 0 0) =
      (initController false 0 Config.defaults 0 0, false, []) :=
  activate_device_failure (initController false 0 Config.defaults 0 0) rfl rfl

/-- C9: the keyboard listener's suppression predicate returns false for
every event whose character identifies the configured toggle key, whatever
the suppression flag. -/
theorem toggle_key_never_suppressed (suppressFlag : Bool) (tk ch : Char)
    (h : ch.toLower = tk) :
    keyboard_suppress_event suppressFlag tk (some ch) = false := by
  simp [keyboard_suppress_event, h]

/-- Witness for C9: the default toggle key is not suppressed even with
suppression enabled. -/
theorem toggle_key_never_suppressed_witness :
    keyboard_suppress_event true 't' (some 't') = false :=
  toggle_key_never_suppressed true 't' 't' rfl

/-- C10: a mouse-move event received while inactive is discarded: the
state (accumulators included) is unchanged and no cursor re-centering is
requested; while active the displacement from the screen centre is added
to the accumulators and re-centering is requested. -/
theorem mouse_move_inactive_discarded (st : GCState) (x y : ℝ) :
    (st.active = false → on_mouse_move st x y = (st, []))
    ∧ (st.active = true →
        (on_mouse_move st x y).1.mouse_dx = st.mouse_dx + (x - st.center_x)
        ∧ (on_mouse_move st x y).1.mouse_dy = st.mouse_dy + (y - st.center_y)
        ∧ (on_mouse_move st x y).2 = [Effect.lock_to_center]) := by
  constructor
  · intro h
    simp [on_mouse_move, h]
  · intro h
    simp [on_mouse_move, h]

/-- Witness for C10: a concrete inactive state discards a concrete move
event, and the same state made active accumulates it. -/
theorem mouse_move_inactive_discarded_witness :
    on_mouse_move stIdle 5 7 = (stIdle, []) :=
  (mouse_move_inactive_discarded stIdle 5 7).1 rfl

/-- Projection lemmas for the device primitives: each vgamepad call
touches only its own channels. -/
@[simp] theorem ljf_leftX (d : DeviceState) (x y : ℝ) :
    (d.left_joystick_float x y).leftX = x := rfl

@[simp] theorem ljf_leftY (d : DeviceState) (x y : ℝ) :
    (d.left_joystick_float x y).leftY = y := rfl

@[simp] theorem ljf_rightX (d : DeviceState) (x y : ℝ) :
    (d.left_joystick_float x y).rightX = d.rightX := rfl

@[simp] theorem ljf_rightY (d : DeviceState) (x y : ℝ) :
    (d.left_joystick_float x y).rightY = d.rightY := rfl

@[simp] theorem ljf_buttons (d : DeviceState) (x y : ℝ) :
    (d.left_joystick_float x y).buttons = d.buttons := rfl

@[simp] theorem ljf_lt (d : DeviceState) (x y : ℝ) :
    (d.left_joystick_float x y).leftTrigger = d.leftTrigger := rfl

@[simp] theorem ljf_rt (d : DeviceState) (x y : ℝ) :
    (d.left_joystick_float x y).rightTrigger = d.rightTrigger := rfl

@[simp] theorem rjf_leftX (d : DeviceState) (x y : ℝ) :
    (d.right_joystick_float x y).leftX = d.leftX := rfl

@[simp] theorem rjf_leftY (d : DeviceState) (x y : ℝ) :
    (d.right_joystick_float x y).leftY = d.leftY := rfl

@[simp] theorem rjf_rightX (d : DeviceState) (x y : ℝ) :
    (d.right_joystick_float x y).rightX = x := rfl

@[simp] theorem rjf_rightY (d : DeviceState) (x y : ℝ) :
    (d.right_joystick_float x y).rightY = y := rfl

@[simp] theorem rjf_buttons (d : DeviceState) (x y : ℝ) :
    (d.right_joystick_float x y).buttons = d.buttons := rfl

@[simp] theorem rjf_lt (d : DeviceState) (x y : ℝ) :
    (d.right_joystick_float x y).leftTrigger = d.leftTrigger := rfl

@[simp] theorem rjf_rt (d : DeviceState) (x y : ℝ) :
    (d.right_joystick_float x y).rightTrigger = d.rightTrigger := rfl

@[simp] theorem press_leftX (d : DeviceState) (bt : XUSBButton) :
    (d.press_button bt).leftX = d.leftX := rfl

@[simp] theorem press_leftY (d : DeviceState) (bt : XUSBButton) :
    (d.press_button bt).leftY = d.leftY := rfl

@[simp] theorem press_rightX (d : DeviceState) (bt : XUSBButton) :
    (d.press_button bt).rightX = d.rightX := rfl

@[simp] theorem press_rightY (d : DeviceState) (bt : XUSBButton) :
    (d.press_button bt).rightY = d.rightY := rfl

@[simp] theorem press_buttons (d : DeviceState) (bt b2 : XUSBButton) :
    (d.press_button bt).buttons b2 = if b2 = bt then true else d.buttons b2 := rfl

@[simp] theorem press_lt (d : DeviceState) (bt : XUSBButton) :
    (d.press_button bt).leftTrigger = d.leftTrigger := rfl

@[simp] theorem press_rt (d : DeviceState) (bt : XUSBButton) :
    (d.press_button bt).rightTrigger = d.rightTrigger := rfl

@[simp] theorem rel_leftX (d : DeviceState) (bt : XUSBButton) :
    (d.release_button bt).leftX = d.leftX := rfl

@[simp] theorem rel_leftY (d : DeviceState) (bt : XUSBButton) :
    (d.release_button bt).leftY = d.leftY := rfl

@[simp] theorem rel_rightX (d : DeviceState) (bt : XUSBButton) :
    (d.release_button bt).rightX = d.rightX := rfl

@[simp] theorem rel_rightY (d : DeviceState) (bt : XUSBButton) :
    (d.release_button bt).rightY = d.rightY := rfl

@[simp] theorem rel_buttons (d : DeviceState) (bt b2 : XUSBButton) :
    (d.release_button bt).buttons b2 = if b2 = bt then false else d.buttons b2 := rfl

@[simp] theorem rel_lt (d : DeviceState) (bt : XUSBButton) :
    (d.release_button bt).leftTrigger = d.leftTrigger := rfl

@[simp] theorem rel_rt (d : DeviceState) (bt : XUSBButton) :
    (d.release_button bt).rightTrigger = d.rightTrigger := rfl

@[simp] theorem ltf_leftX (d : DeviceState) (v : ℝ) :
    (d.left_trigger_float v).leftX = d.leftX := rfl

@[simp] theorem ltf_leftY (d : DeviceState) (v : ℝ) :
    (d.left_trigger_float v).leftY = d.leftY := rfl

@[simp] theorem ltf_rightX (d : DeviceState) (v : ℝ) :
    (d.left_trigger_float v).rightX = d.rightX := rfl

@[simp] theorem ltf_rightY (d : DeviceState) (v : ℝ) :
    (d.left_trigger_float v).rightY = d.rightY := rfl

@[simp] theorem ltf_buttons (d : DeviceState) (v : ℝ) :
    (d.left_trigger_float v).buttons = d.buttons := rfl

@[simp] theorem ltf_lt (d : DeviceState) (v : ℝ) :
    (d.left_trigger_float v).leftTrigger = v := rfl

@[simp] theorem ltf_rt (d : DeviceState) (v : ℝ) :
    (d.left_trigger_float v).rightTrigger = d.rightTrigger := rfl

@[simp] theorem rtf_leftX (d : DeviceState) (v : ℝ) :
    (d.right_trigger_float v).leftX = d.leftX := rfl

@[simp] theorem rtf_leftY (d : DeviceState) (v : ℝ) :
    (d.right_trigger_float v).leftY = d.leftY := rfl

@[simp] theorem rtf_rightX (d : DeviceState) (v : ℝ) :
    (d.right_trigger_float v).rightX = d.rightX := rfl

@[simp] theorem rtf_rightY (d : DeviceState) (v : ℝ) :
    (d.right_trigger_float v).rightY = d.rightY := rfl

@[simp] theorem rtf_buttons (d : DeviceState) (v : ℝ) :
    (d.right_trigger_float v).buttons = d.buttons := rfl

@[simp] theorem rtf_lt (d : DeviceState) (v : ℝ) :
    (d.right_trigger_float v).leftTrigger = d.leftTrigger := rfl

@[simp] theorem rtf_rt (d : DeviceState) (v : ℝ) :
    (d.right_trigger_float v).rightTrigger = v := rfl

/-- Folding release over any sublist of the mapping table leaves every
non-button channel unchanged. -/
@[simp] theorem foldl_release_leftX (l : List (MappedKey × XUSBButton)) (dev : DeviceState) :
    (List.foldl (fun d kb => DeviceState.release_button d kb.2) dev l).leftX = dev.leftX := by
  induction l generalizing dev with
  | nil => rfl
  | cons kb t ih => rw [List.foldl_cons, ih]; rfl

@[simp] theorem foldl_release_leftY (l : List (MappedKey × XUSBButton)) (dev : DeviceState) :
    (List.foldl (fun d kb => DeviceState.release_button d kb.2) dev l).leftY = dev.leftY := by
  induction l generalizing dev with
  | nil => rfl
  | cons kb t ih => rw [List.foldl_cons, ih]; rfl

@[simp] theorem foldl_release_rightX (l : List (MappedKey × XUSBButton)) (dev : DeviceState) :
    (List.foldl (fun d kb => DeviceState.release_button d kb.2) dev l).rightX = dev.rightX := by
  induction l generalizing dev with
  | nil => rfl
  | cons kb t ih => rw [List.foldl_cons, ih]; rfl

@[simp] theorem foldl_release_rightY (l : List (MappedKey × XUSBButton)) (dev : DeviceState) :
    (List.foldl (fun d kb => DeviceState.release_button d kb.2) dev l).rightY = dev.rightY := by
  induction l generalizing dev with
  | nil => rfl
  | cons kb t ih => rw [List.foldl_cons, ih]; rfl

@[simp] theorem foldl_release_lt (l : List (MappedKey × XUSBButton)) (dev : DeviceState) :
    (List.foldl (fun d kb => DeviceState.release_button d kb.2) dev l).leftTrigger =
      dev.leftTrigger := by
  induction l generalizing dev with
  | nil => rfl
  | cons kb t ih => rw [List.foldl_cons, ih]; rfl

@[simp] theorem foldl_release_rt (l : List (MappedKey × XUSBButton)) (dev : DeviceState) :
    (List.foldl (fun d kb => DeviceState.release_button d kb.2) dev l).rightTrigger =
      dev.rightTrigger := by
  induction l generalizing dev with
  | nil => rfl
  | cons kb t ih => rw [List.foldl_cons, ih]; rfl

/-- Folding release over a list releases exactly the listed buttons. -/
theorem foldl_release_buttons (l : List (MappedKey × XUSBButton)) (dev : DeviceState)
    (bt : XUSBButton) :
    (List.foldl (fun d kb => DeviceState.release_button d kb.2) dev l).buttons bt =
      if bt ∈ l.map Prod.snd then false else dev.buttons bt := by
  induction l generalizing dev with
  | nil => simp
  | cons kb t ih =>
      rw [List.foldl_cons, ih]
      by_cases h : bt ∈ t.map Prod.snd
      · simp [h]
      · by_cases h2 : bt = kb.2 <;> simp [h, h2]

/-- Folding release over the whole mapping table releases every button:
the fourteen mapped buttons exhaust the button type. -/
theorem releaseAll_buttons (dev : DeviceState) (bt : XUSBButton) :
    (List.foldl (fun d kb => DeviceState.release_button d kb.2) dev
        KEY_MAPPINGS).buttons bt = false := by
  rw [foldl_release_buttons]
  cases bt <;> simp [KEY_MAPPINGS]

/-- Characterization of the device reset: with a device present it changes
only the device, which ends with both sticks zero, every button released
and both triggers zero, and it issues exactly one flush. -/
theorem reset_gamepad_form (st : GCState) (dev : DeviceState)
    (h : st.gamepad = some dev) :
    ∃ dev2, reset_gamepad st = ({ st with gamepad := some dev2 }, [Effect.update])
      ∧ dev2.leftX = 0 ∧ dev2.leftY = 0 ∧ dev2.rightX = 0 ∧ dev2.rightY = 0
      ∧ (∀ bt, dev2.buttons bt = false)
      ∧ dev2.leftTrigger = 0 ∧ dev2.rightTrigger = 0 := by
  simp only [reset_gamepad, h]
  refine ⟨_, rfl, ?_, ?_, ?_, ?_, fun bt => ?_, ?_, ?_⟩ <;>
    simp [releaseAll_buttons]

/-- Characterization of deactivation from an active state with a device:
the state commits inactive, the device is reset to neutral, key and
joystick-key flags are cleared, every other field (the trigger-held flags
and the accumulators included) is untouched, and the effect trace is the
flush followed by the two suppression releases and the cursor show. -/
theorem deactivate_form (st : GCState) (dev : DeviceState)
    (h1 : st.active = true) (h2 : st.gamepad = some dev) :
    ∃ dev2, deactivate st =
        ({ st with
            active := false
            gamepad := some dev2
            joystick_keys := fun _ => false
            keys := fun _ => false },
         [Effect.update, .suppress_mouse false, .suppress_keyboard false, .show_cursor])
      ∧ dev2.leftX = 0 ∧ dev2.leftY = 0 ∧ dev2.rightX = 0 ∧ dev2.rightY = 0
      ∧ (∀ bt, dev2.buttons bt = false)
      ∧ dev2.leftTrigger = 0 ∧ dev2.rightTrigger = 0 := by
  obtain ⟨dev2, hpair, hprops⟩ :=
    reset_gamepad_form { st with active := false } dev (by simpa using h2)
  refine ⟨dev2, ?_, hprops⟩
  simp only [deactivate, h1, Bool.not_true, Bool.false_eq_true, if_false, hpair]
  rfl

/-- C4 counterexample: deactivating from an active state in which the fire
trigger flag is set leaves that trigger-held flag set, contradicting the
claim that deactivation clears both trigger-held flags. -/
theorem deactivate_keeps_trigger_flag :
    (deactivate stActiveFire).1.l2_held = true := by
  rfl

/-- C4 (amended): the active-to-inactive transition zeroes both sticks,
releases every mapped button and zeroes both triggers on the device,
clears all held-key and held-joystick-key flags, and flushes — but it
leaves the two trigger-held flags unchanged rather than clearing them. -/
theorem deactivate_resets (st : GCState) (dev : DeviceState)
    (h1 : st.active = true) (h2 : st.gamepad = some dev) :
    (deactivate st).1.active = false
    ∧ (∃ dev2, (deactivate st).1.gamepad = some dev2
        ∧ dev2.leftX = 0 ∧ dev2.leftY = 0 ∧ dev2.rightX = 0 ∧ dev2.rightY = 0
        ∧ (∀ bt, dev2.buttons bt = false)
        ∧ dev2.leftTrigger = 0 ∧ dev2.rightTrigger = 0)
    ∧ (∀ k, (deactivate st).1.keys k = false)
    ∧ (∀ k, (deactivate st).1.joystick_keys k = false)
    ∧ (deactivate st).1.l2_held = st.l2_held
    ∧ (deactivate st).1.r2_held = st.r2_held
    ∧ (deactivate st).2 =
        [Effect.update, .suppress_mouse false, .suppress_keyboard false,
         .show_cursor] := by
  obtain ⟨dev2, hpair, hprops⟩ := deactivate_form st dev h1 h2
  rw [hpair]
  exact ⟨rfl, ⟨dev2, rfl, hprops⟩, fun k => rfl, fun k => rfl, rfl, rfl, rfl⟩

/-- Witness for C4 (amended) at the concrete active firing state: the
transition commits inactive and the fire trigger flag is carried over. -/
theorem deactivate_resets_witness :
    (deactivate stActiveFire).1.active = false
    ∧ (deactivate stActiveFire).1.l2_held = stActiveFire.l2_held :=
  ⟨(deactivate_resets stActiveFire {} rfl rfl).1,
   (deactivate_resets stActiveFire {} rfl rfl).2.2.2.2.1⟩

/-- With no trigger held, no displacement and smoothing zero, the
right-stick pipeline outputs exactly zero on both axes. -/
theorem rightStickPipeline_zero (cfg : Tunables) (lastRx lastRy : ℝ)
    (hsm : cfg.SMOOTHING = 0) :
    rightStickPipeline cfg false false lastRx lastRy 0 0 = (0, 0) := by
  norm_num [rightStickPipeline, hsm, min_def, max_def]

/-- Characterization of activation from an inactive state with a device
present: the state commits active with the post-handshake device, every
other field is untouched, the call reports success, and the effect trace
is the four wake flushes with their pauses followed by the two suppression
requests and the cursor lock and hide. -/
theorem activate_form (ck : Bool) (st : GCState) (dev : DeviceState)
    (h1 : st.active = false) (h2 : st.gamepad = some dev) :
    ∃ dev2, activate ck st =
      ({ st with gamepad := some dev2, active := true }, true,
       [Effect.update, .sleep, .update, .sleep, .update, .sleep, .update, .sleep,
        .suppress_mouse true, .suppress_keyboard true, .lock_to_center, .hide_cursor]) := by
  refine ⟨(wakeIter (wakeIter dev).1).1, ?_⟩
  simp only [activate, h1, Bool.false_eq_true, if_false, initialize_gamepad, h2]
  rfl

/-- A full mapper pass over a state holding no key, no joystick key and no
trigger, with empty accumulators and smoothing zero, leaves the device
with every channel neutral. -/
theorem run_mappers_neutral (cfg : Tunables) (st : GCState) (dev : DeviceState)
    (hk : ∀ k, st.keys k = false) (hj : ∀ k, st.joystick_keys k = false)
    (hl2 : st.l2_held = false) (hr2 : st.r2_held = false)
    (hdx : st.mouse_dx = 0) (hdy : st.mouse_dy = 0) (hsm : cfg.SMOOTHING = 0) :
    (run_mappers cfg st dev).2.leftX = 0 ∧ (run_mappers cfg st dev).2.leftY = 0
    ∧ (run_mappers cfg st dev).2.rightX = 0 ∧ (run_mappers cfg st dev).2.rightY = 0
    ∧ (∀ bt, (run_mappers cfg st dev).2.buttons bt = false)
    ∧ (run_mappers cfg st dev).2.leftTrigger = 0
    ∧ (run_mappers cfg st dev).2.rightTrigger = 0 := by
  have hleft : leftStickVec st.joystick_keys = (0, 0) := leftStickVec_none _ hj
  have hp : rightStickPipeline cfg false false st.last_rx st.last_ry 0 0 = (0, 0) :=
    rightStickPipeline_zero cfg _ _ hsm
  simp [run_mappers, process_left_joystick, process_right_joystick, get_mouse_movement,
    process_buttons, process_triggers, hleft, hp, hk, hl2, hr2, hdx, hdy,
    releaseAll_buttons]

/-- C6 counterexample: starting from an active state with 1000 counts of
undrained mouse displacement and nothing held, deactivating then
re-activating and running the first due scheduler tick with the default
tunables emits right-stick X equal to 1, not the neutral 0 the claim
requires. -/
theorem reactivation_not_neutral_counterexample :
    Option.map (fun d => d.rightX)
        (process_inputs Config.defaults 1
          (activate true (deactivate stActiveResidual).1).1).1.gamepad = some 1
    ∧ Option.map (fun d => d.rightX)
        (process_inputs Config.defaults 1
          (activate true (deactivate stActiveResidual).1).1).1.gamepad ≠ some 0 := by
  have h1 : Option.map (fun d => d.rightX)
      (process_inputs Config.defaults 1
        (activate true (deactivate stActiveResidual).1).1).1.gamepad = some 1 := by
    norm_num [stActiveResidual, Config.defaults, deactivate, reset_gamepad, activate,
      initialize_gamepad, wakeIter, process_inputs, run_mappers, process_left_joystick,
      process_right_joystick, get_mouse_movement, process_buttons, process_triggers,
      leftStickVec, leftAccum, JOYSTICK_KEYS, rightStickPipeline, abs_of_pos,
      min_def, max_def]
  refine ⟨h1, ?_⟩
  rw [h1]
  norm_num

/-- C6 (amended): deactivating and then re-activating while no key,
joystick key or mouse button is held makes the first due scheduler tick
emit neutral output — provided additionally that the pending mouse
accumulators are zero and the smoothing factor is 0 (its default), since
those survive deactivation and would otherwise leak into the first tick. -/
theorem reactivation_first_tick_neutral (cfg : Tunables) (ck : Bool) (now : ℝ)
    (st : GCState) (dev : DeviceState)
    (hact : st.active = true) (hdev : st.gamepad = some dev)
    (hl2 : st.l2_held = false) (hr2 : st.r2_held = false)
    (hdx : st.mouse_dx = 0) (hdy : st.mouse_dy = 0)
    (hsm : cfg.SMOOTHING = 0)
    (ht : ¬ now - st.last_update < st.update_interval) :
    ∃ dev2,
      (process_inputs cfg now (activate ck (deactivate st).1).1).1.gamepad = some dev2
      ∧ dev2.leftX = 0 ∧ dev2.leftY = 0 ∧ dev2.rightX = 0 ∧ dev2.rightY = 0
      ∧ (∀ bt, dev2.buttons bt = false)
      ∧ dev2.leftTrigger = 0 ∧ dev2.rightTrigger = 0
      ∧ (process_inputs cfg now (activate ck (deactivate st).1).1).2 =
          [Effect.update] := by
  obtain ⟨devR, hdeact, _⟩ := deactivate_form st dev hact hdev
  rw [hdeact]
  obtain ⟨devW, hactv⟩ := activate_form ck
    { st with
        active := false
        gamepad := some devR
        joystick_keys := fun _ => false
        keys := fun _ => false } devR rfl rfl
  simp only [hactv]
  have hnm := run_mappers_neutral cfg
    { st with
        active := true
        gamepad := some devW
        joystick_keys := fun _ => false
        keys := fun _ => false
        last_update := now }
    devW (fun k => rfl) (fun k => rfl) hl2 hr2 hdx hdy hsm
  refine ⟨_, ?_, hnm.1, hnm.2.1, hnm.2.2.1, hnm.2.2.2.1, hnm.2.2.2.2.1,
    hnm.2.2.2.2.2.1, hnm.2.2.2.2.2.2, ?_⟩ <;>
    simp [process_inputs, ht]

/-- Witness for C6 (amended) at a clean active state: the tick after a
deactivate-activate round trip emits neutral output. -/
theorem reactivation_first_tick_neutral_witness :
    ∃ dev2,
      (process_inputs Config.defaults 1
          (activate true (deactivate stActiveClean).1).1).1.gamepad = some dev2
      ∧ dev2.leftX = 0 ∧ dev2.leftY = 0 ∧ dev2.rightX = 0 ∧ dev2.rightY = 0
      ∧ (∀ bt, dev2.buttons bt = false)
      ∧ dev2.leftTrigger = 0 ∧ dev2.rightTrigger = 0
      ∧ (process_inputs Config.defaults 1
          (activate true (deactivate stActiveClean).1).1).2 = [Effect.update] :=
  reactivation_first_tick_neutral Config.defaults true 1 stActiveClean {}
    rfl rfl rfl rfl rfl rfl rfl (by norm_num [stActiveClean])

end Theorems

end ControllerEmulator
